import Mathlib

/-!
Shallow embedding of `src/yolo/capture_analyze.py`: a camera-fleet polling
orchestrator that fetches frames over HTTP, counts people with a vision
model, writes a metric, and manages per-camera failure counts, a daily
reboot schedule and a post-reboot cooldown window.

External effects (HTTP fetches, image decoding, the vision model, the
metric sink, reboot requests, wall-clock readings) are supplied as
parameters; the control flow and state updates of the Python code are
translated literally.
-/

namespace CaptureAnalyze

/-- TIMEOUT_SECONDS = 5 (line 30). -/
def TIMEOUT_SECONDS : Nat := 5

/-- MAX_RETRIES = 3 (line 31). -/
def MAX_RETRIES : Nat := 3

/-- INTERVAL_SECONDS = 5 (line 32). -/
def INTERVAL_SECONDS : Nat := 5

/-- REBOOT_COOLDOWN_SECONDS = 300 (line 35). -/
def REBOOT_COOLDOWN_SECONDS : Nat := 300

/-- The literal `time.sleep(1)` between retries (line 113). -/
def RETRY_DELAY_SECONDS : Nat := 1

/-- The literal `time.sleep(60)` backoff when the camera list is empty (line 159). -/
def EMPTY_LIST_BACKOFF_SECONDS : Nat := 60

/-- The literal hour 3 in `current_time.hour == 3` (line 151). -/
def DAILY_REBOOT_HOUR : Nat := 3

/-- Modelled from the spec: `escalationThreshold` (default 20). The source's
escalation path is absent (the threshold-20 block at lines 116-117 is
commented out, and even that block sent a notification, not a reboot). -/
def ESCALATION_THRESHOLD : Nat := 20

/-- One entry of `cameras.json`: `camera['room']` and `camera['url']`. -/
structure Camera where
  room : String
  url : String
deriving DecidableEq

/-- Outcome of the environment for `load_camera_list`: either the file reads
and parses to a list, or a FileNotFoundError / JSONDecodeError occurs. -/
inductive LoadResult where
  | ok (cams : List Camera)
  | err
deriving DecidableEq

/-- Embedding of `load_camera_list` (lines 41-48): a read/parse failure
yields the empty list. -/
def load_camera_list : LoadResult → List Camera
  | .ok cams => cams
  | .err => []

/-- Outcome of one iteration of the try-block in `process_camera`
(lines 87-121), as decided by the environment:
* `ok count dur`: fetch, decode, `count_person` and the metric write all
  succeed, taking `dur` seconds and counting `count` people;
* `transient dur`: `requests.get` or `raise_for_status` raises
  `Timeout`/`RequestException` after `dur` seconds (e.g. a full timeout
  takes `TIMEOUT_SECONDS`);
* `decodeFail dur`: the bytes are fetched but `cv2.imdecode` returns None,
  raising the `ValueError` of line 95, after `dur` seconds. -/
inductive AttemptOutcome where
  | ok (count : Nat) (dur : Nat)
  | transient (dur : Nat)
  | decodeFail (dur : Nat)
deriving DecidableEq

/-- True on the `transient` constructor. -/
def AttemptOutcome.isTransient : AttemptOutcome → Bool
  | .transient _ => true
  | _ => false

/-- Result of one call of `process_camera` for one camera:
* `failureCount`: the value of `failure_counts[camera_url]` on return;
* `attempts`: how many `requests.get(camera_url)` frame fetches were made;
* `metric`: the people count written to InfluxDB, if any;
* `elapsed`: seconds spent in the call (attempt durations plus retry sleeps). -/
structure PollOutcome where
  failureCount : Nat
  attempts : Nat
  metric : Option Nat
  elapsed : Nat
deriving DecidableEq

/-- The `while retries < MAX_RETRIES` loop of `process_camera`
(lines 86-121), with `fuel = MAX_RETRIES - retries`. `env k` is the outcome
of the attempt made when `retries = k`:
* on success (lines 88-108): write the metric, set the failure count to 0,
  `break`;
* on `Timeout`/`RequestException` (lines 110-115): `retries += 1`,
  `time.sleep(1)`, `failure_counts[camera_url] += 1`, loop again;
* on the decode `ValueError` (lines 119-121): `break` with the failure
  count unchanged. -/
def pollGo (env : Nat → AttemptOutcome) : Nat → Nat → Nat → Nat → PollOutcome
  | 0, retries, fc, elapsed => ⟨fc, retries, none, elapsed⟩
  | fuel + 1, retries, fc, elapsed =>
    match env retries with
    | .ok count dur => ⟨0, retries + 1, some count, elapsed + dur⟩
    | .transient dur =>
        pollGo env fuel (retries + 1) (fc + 1) (elapsed + dur + RETRY_DELAY_SECONDS)
    | .decodeFail dur => ⟨fc, retries + 1, none, elapsed + dur⟩

/-- Embedding of `process_camera` (lines 71-124) for one camera:
* `fc0` is `failure_counts.get(camera_url)` before the call (`none` when the
  key is absent; lines 76-77 lazily initialise it to 0);
* `lastReboot` is `last_reboot_times.get(camera_url)`;
* if the camera was rebooted less than `REBOOT_COOLDOWN_SECONDS` ago
  (lines 79-84), return immediately: no fetch, no metric, counter unchanged;
* otherwise run the retry loop starting from `retries = 0`. -/
def process_camera (env : Nat → AttemptOutcome) (now : Nat)
    (fc0 : Option Nat) (lastReboot : Option Nat) : PollOutcome :=
  let fc := fc0.getD 0
  match lastReboot with
  | some t =>
      if now - t < REBOOT_COOLDOWN_SECONDS then ⟨fc, 0, none, 0⟩
      else pollGo env MAX_RETRIES 0 fc 0
  | none => pollGo env MAX_RETRIES 0 fc 0

/-- Embedding of `reboot_camera` (lines 58-69). `ok` tells whether the GET
to the control endpoint completed with a 2xx status: only then is
`last_reboot_times[camera_url] = datetime.now()` recorded (line 67); a
`RequestException` (line 68) leaves the map unchanged. The reboot command
itself is issued (the GET is attempted) in both cases. -/
def reboot_camera (ok : Bool) (now : Nat) (url : String)
    (times : String → Option Nat) : String → Option Nat :=
  if ok then fun u => if u = url then some now else times u else times

/-- Embedding of `reboot_all_cameras` (lines 137-141): reload the camera
list and send a reboot command to every entry. Returns the updated
`last_reboot_times` map and the list of urls a command was issued to. -/
def reboot_all_cameras (load1 : LoadResult) (rebootOk : String → Bool)
    (now : Nat) (times : String → Option Nat) :
    (String → Option Nat) × List String :=
  let cams := load_camera_list load1
  (cams.foldl (fun t c => reboot_camera (rebootOk c.url) now c.url t) times,
   cams.map Camera.url)

/-- The three pieces of global mutable state of the script: the
`failure_counts` and `last_reboot_times` dicts (lines 38-39, keys absent
until first written) and `main`'s `last_reboot_day` (line 145). Dates are
abstracted to naturals. -/
structure OrchState where
  failure_counts : String → Option Nat
  last_reboot_times : String → Option Nat
  last_reboot_day : Option Nat

/-- State at process start: both dicts empty, no reboot day recorded. -/
def initState : OrchState :=
  ⟨fun _ => none, fun _ => none, none⟩

/-- The per-camera fan-out of one main-loop iteration (lines 162-173): one
`process_camera` unit per list entry. Each unit reads and writes only its
own url's entry of `failure_counts` and reads `last_reboot_times`, so the
concurrent threads are modelled as a fold. `env u k` is the outcome of
camera `u`'s attempt `k`. -/
def runCameras (env : String → Nat → AttemptOutcome) (now : Nat) :
    List Camera → (String → Option Nat) → (String → Option Nat) →
    (String → Option Nat)
  | [], fcm, _ => fcm
  | c :: rest, fcm, times =>
      let r := process_camera (env c.url) now (fcm c.url) (times c.url)
      runCameras env now rest
        (fun u => if u = c.url then some r.failureCount else fcm u) times

/-- Observable effects of one main-loop iteration:
* `rebootCmds`: urls a reboot command was issued to this iteration;
* `sleep`: the argument of the iteration's final `time.sleep` in seconds;
* `dispatched`: whether per-camera capture work was dispatched. -/
structure IterEffects where
  rebootCmds : List String
  sleep : Int
  dispatched : Bool

/-- One iteration of the `while True` loop of `main` (lines 147-177):
* if `current_time.hour == 3` and `last_reboot_day` differs from today's
  date (line 151), call `reboot_all_cameras` and record today (lines
  153-154); `load1` is that call's own list load;
* reload the camera list (`load2`, line 156); if empty, sleep 60 seconds
  and `continue` (lines 157-160);
* otherwise dispatch one `process_camera` per camera, join, and sleep
  `max(0, INTERVAL_SECONDS - elapsed)` (lines 162-177), `elapsedWork`
  being the measured wall time of the camera work. -/
def mainIteration (hour date now : Nat) (load1 load2 : LoadResult)
    (rebootOk : String → Bool) (env : String → Nat → AttemptOutcome)
    (elapsedWork : Int) (st : OrchState) : OrchState × IterEffects :=
  let daily := hour == DAILY_REBOOT_HOUR && st.last_reboot_day != some date
  let times1 :=
    if daily then (reboot_all_cameras load1 rebootOk now st.last_reboot_times).1
    else st.last_reboot_times
  let cmds :=
    if daily then (reboot_all_cameras load1 rebootOk now st.last_reboot_times).2
    else []
  let day1 := if daily then some date else st.last_reboot_day
  let cams := load_camera_list load2
  if cams.isEmpty then
    (⟨st.failure_counts, times1, day1⟩,
     ⟨cmds, (EMPTY_LIST_BACKOFF_SECONDS : Int), false⟩)
  else
    (⟨runCameras env now cams st.failure_counts times1, times1, day1⟩,
     ⟨cmds, max 0 ((INTERVAL_SECONDS : Int) - elapsedWork), true⟩)

/-! Helper lemmas about the retry loop. -/

theorem pollGo_metric_some_failureCount (env : Nat → AttemptOutcome) :
    ∀ fuel retries fc elapsed c,
      (pollGo env fuel retries fc elapsed).metric = some c →
      (pollGo env fuel retries fc elapsed).failureCount = 0 := by
  intro fuel
  induction fuel with
  | zero => intro r fc e c h; simp [pollGo] at h
  | succ n ih =>
      intro r fc e c h
      cases henv : env r with
      | ok cnt d => simp [pollGo, henv]
      | transient d =>
          simp only [pollGo, henv] at h ⊢
          exact ih _ _ _ _ h
      | decodeFail d => simp [pollGo, henv] at h

theorem pollGo_attempts_ge (env : Nat → AttemptOutcome) :
    ∀ fuel retries fc elapsed,
      retries ≤ (pollGo env fuel retries fc elapsed).attempts := by
  intro fuel
  induction fuel with
  | zero => intro r fc e; simp [pollGo]
  | succ n ih =>
      intro r fc e
      cases henv : env r with
      | ok cnt d => simp [pollGo, henv]
      | transient d =>
          simp only [pollGo, henv]
          exact le_trans (Nat.le_succ r) (ih (r + 1) _ _)
      | decodeFail d => simp [pollGo, henv]

theorem pollGo_failureCount_le (env : Nat → AttemptOutcome) :
    ∀ fuel retries fc elapsed,
      (pollGo env fuel retries fc elapsed).failureCount ≤ fc + fuel := by
  intro fuel
  induction fuel with
  | zero => intro r fc e; simp [pollGo]
  | succ n ih =>
      intro r fc e
      cases henv : env r with
      | ok cnt d => simp [pollGo, henv]
      | transient d =>
          simp only [pollGo, henv]
          calc (pollGo env n (r + 1) (fc + 1) _).failureCount
              ≤ (fc + 1) + n := ih _ _ _
            _ = fc + (n + 1) := by omega
      | decodeFail d => simp [pollGo, henv]

theorem pollGo_attempts_pos (env : Nat → AttemptOutcome)
    (fuel retries fc elapsed : Nat) (hfuel : 0 < fuel) :
    retries + 1 ≤ (pollGo env fuel retries fc elapsed).attempts := by
  cases fuel with
  | zero => exact absurd hfuel (by omega)
  | succ n =>
      cases henv : env retries with
      | ok cnt d => simp only [pollGo, henv]; exact le_refl _
      | transient d =>
          simp only [pollGo, henv]
          exact pollGo_attempts_ge env n (retries + 1) _ _
      | decodeFail d => simp only [pollGo, henv]; exact le_refl _

/-- A hypothesis that attempt `k` is transient yields a duration witness. -/
theorem isTransient_elim {o : AttemptOutcome} (h : o.isTransient = true) :
    ∃ d, o = .transient d := by
  cases o with
  | ok c d => simp [AttemptOutcome.isTransient] at h
  | transient d => exact ⟨d, rfl⟩
  | decodeFail d => simp [AttemptOutcome.isTransient] at h

/-- C3: whenever a polling attempt succeeds end to end — the frame is
fetched, decoded, the occupancy estimated and the metric recorded —
`process_camera` leaves `failure_counts[camera_url]` at exactly 0,
whatever its prior value `fc0` was. -/
theorem success_resets_failures (env : Nat → AttemptOutcome) (now : Nat)
    (fc0 lastReboot : Option Nat) (c : Nat)
    (h : (process_camera env now fc0 lastReboot).metric = some c) :
    (process_camera env now fc0 lastReboot).failureCount = 0 := by
  unfold process_camera at h ⊢
  cases lastReboot with
  | none => exact pollGo_metric_some_failureCount env _ _ _ _ _ h
  | some t =>
      by_cases hc : now - t < REBOOT_COOLDOWN_SECONDS
      · simp [hc] at h
      · simp only [hc, if_false] at h ⊢
        exact pollGo_metric_some_failureCount env _ _ _ _ _ h

/-- Witness for C3: a cycle whose first attempt succeeds with count 2,
starting from a failure count of 17. -/
theorem success_resets_failures_witness :
    (process_camera (fun _ => .ok 2 1) 0 (some 17) none).failureCount = 0 :=
  success_resets_failures (fun _ => .ok 2 1) 0 (some 17) none 2 (by decide)

/-- C4: while the cooldown after a reboot at time `t` is active
(`now - t < REBOOT_COOLDOWN_SECONDS`), `process_camera` returns at once:
no frame fetch happens, no metric is recorded, the failure count is
untouched and no time is spent; the first call at or after the boundary
makes at least one fetch attempt again. -/
theorem cooldown_suppresses_polling (env : Nat → AttemptOutcome)
    (now t : Nat) (fc0 : Option Nat) :
    (now - t < REBOOT_COOLDOWN_SECONDS →
      process_camera env now fc0 (some t) = ⟨fc0.getD 0, 0, none, 0⟩) ∧
    (REBOOT_COOLDOWN_SECONDS ≤ now - t →
      1 ≤ (process_camera env now fc0 (some t)).attempts) := by
  constructor
  · intro h; simp [process_camera, h]
  · intro h
    have hlt : ¬ now - t < REBOOT_COOLDOWN_SECONDS := not_lt.mpr h
    simp only [process_camera, hlt, if_false]
    show 1 ≤ (pollGo env MAX_RETRIES 0 (fc0.getD 0) 0).attempts
    exact pollGo_attempts_pos env MAX_RETRIES 0 _ _ (by decide)

/-- Witness for C4: a reboot at time 1000; at time 1299 the cooldown still
holds and nothing is fetched, at time 1300 polling resumes. -/
theorem cooldown_suppresses_polling_witness :
    process_camera (fun _ => .transient 5) 1299 (some 4) (some 1000)
      = ⟨4, 0, none, 0⟩ ∧
    1 ≤ (process_camera (fun _ => .transient 5) 1300 (some 4)
          (some 1000)).attempts :=
  ⟨(cooldown_suppresses_polling (fun _ => .transient 5) 1299 1000
      (some 4)).1 (by decide),
   (cooldown_suppresses_polling (fun _ => .transient 5) 1300 1000
      (some 4)).2 (by decide)⟩

/-- C6: a decode failure at attempt `k` (after `k` transient attempts)
ends the camera's cycle immediately: exactly `k + 1` fetches were made and
none follow, no metric is recorded, and the failure count carries only the
`k` increments of the transient attempts — the decode failure itself adds
nothing. `process_camera` contains no reboot call at all, so no reboot is
issued. -/
theorem decode_failure_aborts (env : Nat → AttemptOutcome) (now : Nat)
    (fc0 : Option Nat) (k d : Nat) (hk : k < MAX_RETRIES)
    (htr : ∀ j, j < k → (env j).isTransient = true)
    (hd : env k = .decodeFail d) :
    (process_camera env now fc0 none).attempts = k + 1 ∧
    (process_camera env now fc0 none).metric = none ∧
    (process_camera env now fc0 none).failureCount = fc0.getD 0 + k := by
  unfold process_camera
  have hk3 : k < 3 := hk
  interval_cases k
  · simp [MAX_RETRIES, pollGo, hd]
  · obtain ⟨d0, h0⟩ := isTransient_elim (htr 0 (by omega))
    simp [MAX_RETRIES, pollGo, h0, hd]
  · obtain ⟨d0, h0⟩ := isTransient_elim (htr 0 (by omega))
    obtain ⟨d1, h1⟩ := isTransient_elim (htr 1 (by omega))
    simp [MAX_RETRIES, pollGo, h0, h1, hd]

/-- Witness for C6: one transient attempt, then a decode failure at the
second of the three allowed attempts: two fetches, no metric, one single
increment from the transient attempt. -/
theorem decode_failure_aborts_witness :
    (process_camera
        (fun j => if j = 0 then .transient 5 else .decodeFail 2) 0
        (some 7) none).attempts = 2 ∧
    (process_camera
        (fun j => if j = 0 then .transient 5 else .decodeFail 2) 0
        (some 7) none).metric = none ∧
    (process_camera
        (fun j => if j = 0 then .transient 5 else .decodeFail 2) 0
        (some 7) none).failureCount = 7 + 1 :=
  decode_failure_aborts
    (fun j => if j = 0 then .transient 5 else .decodeFail 2) 0
    (some 7) 1 2 (by decide) (by decide) (by decide)

/-- C1 counterexample: with the failure count at 0 and all three attempts
failing transiently, `process_camera` leaves the counter at 3, not at
0 + 1: the code increments once per retry (line 115 sits inside the
except block), not once per cycle. -/
theorem per_retry_increment_cex :
    (process_camera (fun _ => .transient TIMEOUT_SECONDS) 0 (some 0)
        none).failureCount = 3 ∧ (3 : Nat) ≠ 0 + 1 := by
  exact ⟨by decide, by decide⟩

/-- C1 (amended): in a cycle in which all `MAX_RETRIES` attempts fail
transiently, `failure_counts[camera_url]` grows by exactly `MAX_RETRIES`
(one increment per failed attempt, not one per cycle); it never grows by
more than `MAX_RETRIES` in one cycle, whatever the attempt outcomes; and a
cycle whose first attempt is a decode failure leaves it unchanged. -/
theorem transient_cycle_increments_per_retry (env : Nat → AttemptOutcome)
    (now : Nat) (fc0 : Option Nat)
    (h : ∀ k, k < MAX_RETRIES → (env k).isTransient = true) :
    (process_camera env now fc0 none).failureCount
        = fc0.getD 0 + MAX_RETRIES ∧
    (∀ env2 : Nat → AttemptOutcome,
        (process_camera env2 now fc0 none).failureCount
          ≤ fc0.getD 0 + MAX_RETRIES) ∧
    (∀ env3 : Nat → AttemptOutcome, ∀ d : Nat, env3 0 = .decodeFail d →
        (process_camera env3 now fc0 none).failureCount = fc0.getD 0) := by
  refine ⟨?_, ?_, ?_⟩
  · obtain ⟨d0, h0⟩ := isTransient_elim (h 0 (by decide))
    obtain ⟨d1, h1⟩ := isTransient_elim (h 1 (by decide))
    obtain ⟨d2, h2⟩ := isTransient_elim (h 2 (by decide))
    simp [process_camera, MAX_RETRIES, pollGo, h0, h1, h2]
  · intro env2
    exact pollGo_failureCount_le env2 MAX_RETRIES 0 _ 0
  · intro env3 d hd
    simp [process_camera, MAX_RETRIES, pollGo, hd]

/-- Witness for C1 (amended): starting from a count of 4, an all-transient
cycle ends at 4 + 3, and a decode-failure cycle ends at 4. -/
theorem transient_cycle_increments_per_retry_witness :
    (process_camera (fun _ => .transient 5) 0 (some 4) none).failureCount
        = 4 + MAX_RETRIES ∧
    (process_camera (fun _ => .decodeFail 2) 0 (some 4) none).failureCount
        = 4 := by
  have h := transient_cycle_increments_per_retry (fun _ => .transient 5) 0
    (some 4) (by intro k hk; rfl)
  exact ⟨h.1, h.2.2 (fun _ => .decodeFail 2) 2 rfl⟩

/-- C8 counterexample: when all three attempts time out after
`TIMEOUT_SECONDS = 5` seconds with a 1-second retry delay, the cycle takes
18 seconds, not 17: `time.sleep(1)` (line 113) also runs after the final
failed attempt, not only between consecutive attempts. -/
theorem final_attempt_delay_cex :
    (process_camera (fun _ => .transient TIMEOUT_SECONDS) 0 none
        none).elapsed = 18 ∧ (18 : Nat) ≠ 17 := by
  exact ⟨by decide, by decide⟩

/-- C8 (amended): a cycle whose `MAX_RETRIES = 3` attempts all time out at
`TIMEOUT_SECONDS = 5` with `RETRY_DELAY_SECONDS = 1` gives up after
`3 × (5 + 1) = 18` seconds — the retry delay runs after every failed
attempt, the final one included — and records no metric. -/
theorem all_timeout_cycle_elapsed (env : Nat → AttemptOutcome) (now : Nat)
    (fc0 : Option Nat)
    (h : ∀ k, k < MAX_RETRIES → env k = .transient TIMEOUT_SECONDS) :
    (process_camera env now fc0 none).elapsed
        = MAX_RETRIES * (TIMEOUT_SECONDS + RETRY_DELAY_SECONDS) ∧
    (process_camera env now fc0 none).metric = none := by
  have h0 := h 0 (by decide)
  have h1 := h 1 (by decide)
  have h2 := h 2 (by decide)
  constructor
  · simp [process_camera, MAX_RETRIES, pollGo, h0, h1, h2,
      TIMEOUT_SECONDS, RETRY_DELAY_SECONDS]
  · simp [process_camera, MAX_RETRIES, pollGo, h0, h1, h2]

/-- Witness for C8 (amended): the concrete all-timeout cycle takes
18 seconds and records nothing. -/
theorem all_timeout_cycle_elapsed_witness :
    (process_camera (fun _ => .transient TIMEOUT_SECONDS) 0 none
        none).elapsed = MAX_RETRIES * (TIMEOUT_SECONDS + RETRY_DELAY_SECONDS) ∧
    (process_camera (fun _ => .transient TIMEOUT_SECONDS) 0 none
        none).metric = none :=
  all_timeout_cycle_elapsed (fun _ => .transient TIMEOUT_SECONDS) 0 none
    (by intro k hk; rfl)

/-- C5 counterexample: `reboot_camera` is called (the reboot GET is
issued) but the request fails, e.g. the camera answers with a non-2xx
status: `last_reboot_times` is left without an entry for the camera,
against the claim that issuing a reboot always sets `lastRebootAt` to the
current time. -/
theorem failed_reboot_no_timestamp_cex :
    reboot_camera false 100 "cam" (fun _ => none) "cam" = none ∧
    (none : Option Nat) ≠ some 100 := by
  exact ⟨rfl, by decide⟩

/-- C5 (amended): `reboot_camera` sets `last_reboot_times[url]` to the
current time exactly when the reboot request completes successfully; a
failed request (`RequestException`, line 68) leaves the whole map
unchanged, and other cameras' entries are never touched — so a camera
never successfully rebooted keeps no `lastRebootAt` entry. -/
theorem reboot_records_time_on_success (ok : Bool) (now : Nat)
    (url : String) (times : String → Option Nat) :
    (ok = true → reboot_camera ok now url times url = some now) ∧
    (ok = false → reboot_camera ok now url times = times) ∧
    (∀ u, u ≠ url → reboot_camera ok now url times u = times u) := by
  refine ⟨?_, ?_, ?_⟩
  · intro h; simp [reboot_camera, h]
  · intro h; simp [reboot_camera, h]
  · intro u hu; cases ok <;> simp [reboot_camera, hu]

/-- Witness for C5 (amended): a successful reboot of `"a"` at time 50
records 50 for `"a"` and leaves `"b"` untouched; a failed one changes
nothing. -/
theorem reboot_records_time_on_success_witness :
    reboot_camera true 50 "a" (fun _ => none) "a" = some 50 ∧
    reboot_camera false 50 "a" (fun _ => none) = (fun _ => none) ∧
    reboot_camera true 50 "a" (fun _ => none) "b" = none := by
  refine ⟨(reboot_records_time_on_success true 50 "a" (fun _ => none)).1 rfl,
    (reboot_records_time_on_success false 50 "a" (fun _ => none)).2.1 rfl,
    (reboot_records_time_on_success true 50 "a"
      (fun _ => none)).2.2 "b" (by decide)⟩

/-! Helper lemmas about one main-loop iteration. -/

theorem mainIteration_rebootCmds (hour date now : Nat)
    (load1 load2 : LoadResult) (rebootOk : String → Bool)
    (env : String → Nat → AttemptOutcome) (elapsedWork : Int)
    (st : OrchState) :
    (mainIteration hour date now load1 load2 rebootOk env elapsedWork
        st).2.rebootCmds =
      if hour == DAILY_REBOOT_HOUR && st.last_reboot_day != some date
      then (load_camera_list load1).map Camera.url else [] := by
  unfold mainIteration reboot_all_cameras
  cases h : (hour == DAILY_REBOOT_HOUR && st.last_reboot_day != some date) <;>
    cases hc : (load_camera_list load2).isEmpty <;> simp [h, hc]

theorem mainIteration_lastDay (hour date now : Nat)
    (load1 load2 : LoadResult) (rebootOk : String → Bool)
    (env : String → Nat → AttemptOutcome) (elapsedWork : Int)
    (st : OrchState) :
    (mainIteration hour date now load1 load2 rebootOk env elapsedWork
        st).1.last_reboot_day =
      if hour == DAILY_REBOOT_HOUR && st.last_reboot_day != some date
      then some date else st.last_reboot_day := by
  unfold mainIteration
  cases h : (hour == DAILY_REBOOT_HOUR && st.last_reboot_day != some date) <;>
    cases hc : (load_camera_list load2).isEmpty <;> simp [h, hc]

/-- C2 (amended): a reboot command is issued in an iteration if and only
if the wall-clock hour equals `DAILY_REBOOT_HOUR` and no daily reboot has
been recorded for the current date — and then exactly the cameras of the
freshly loaded list are rebooted. The failure count plays no role: the
escalation path is absent from the code (the threshold block is commented
out, and even it sent a notification rather than a reboot). -/
theorem daily_only_reboot_policy (hour date now : Nat)
    (load1 load2 : LoadResult) (rebootOk : String → Bool)
    (env : String → Nat → AttemptOutcome) (elapsedWork : Int)
    (st : OrchState) :
    (mainIteration hour date now load1 load2 rebootOk env elapsedWork
        st).2.rebootCmds =
      if hour = DAILY_REBOOT_HOUR ∧ st.last_reboot_day ≠ some date
      then (load_camera_list load1).map Camera.url else [] := by
  rw [mainIteration_rebootCmds]
  by_cases h1 : hour = DAILY_REBOOT_HOUR <;>
    by_cases h2 : st.last_reboot_day = some date <;> simp [h1, h2]

/-- Environment of the C2 counterexample: every fetch attempt of every
camera times out. -/
def cexEnv : String → Nat → AttemptOutcome :=
  fun _ _ => .transient TIMEOUT_SECONDS

/-- Camera list of the C2 counterexample: one camera. -/
def cexLoad : LoadResult := .ok [⟨"room1", "cam"⟩]

/-- Orchestrator states of the C2 counterexample: iterations at hour 10
(not the daily-reboot hour) in which every attempt of the single camera
times out. -/
def cexStates : Nat → OrchState
  | 0 => initState
  | n + 1 =>
      (mainIteration 10 0 1000 cexLoad cexLoad (fun _ => true) cexEnv 0
        (cexStates n)).1

/-- C2 counterexample: after 7 all-transient cycles the camera's failure
count has grown from 18 past `ESCALATION_THRESHOLD = 20` to 21, yet the
crossing iteration issues no reboot command and the camera has never been
rebooted — escalation never triggers a reboot in the code. -/
theorem escalation_never_reboots_cex :
    (cexStates 6).failure_counts "cam" = some 18 ∧
    (cexStates 7).failure_counts "cam" = some 21 ∧
    18 < ESCALATION_THRESHOLD ∧ ESCALATION_THRESHOLD ≤ 21 ∧
    (mainIteration 10 0 1000 cexLoad cexLoad (fun _ => true) cexEnv 0
        (cexStates 6)).2.rebootCmds = [] ∧
    (cexStates 7).last_reboot_times "cam" = none := by
  refine ⟨by decide, by decide, by decide, by decide, by decide, by decide⟩

/-- C7: when the camera list loads as empty — missing file, malformed
JSON or an empty configuration — the iteration dispatches no capture
work, leaves every failure counter untouched, and sleeps for the
60-second empty-list backoff, which differs from the 5-second cadence;
the loop then continues with the next iteration. -/
theorem empty_list_backoff (hour date now : Nat)
    (load1 load2 : LoadResult) (rebootOk : String → Bool)
    (env : String → Nat → AttemptOutcome) (elapsedWork : Int)
    (st : OrchState) (h : load_camera_list load2 = []) :
    (mainIteration hour date now load1 load2 rebootOk env elapsedWork
        st).2.dispatched = false ∧
    (mainIteration hour date now load1 load2 rebootOk env elapsedWork
        st).2.sleep = (EMPTY_LIST_BACKOFF_SECONDS : Int) ∧
    (EMPTY_LIST_BACKOFF_SECONDS : Int) ≠ (INTERVAL_SECONDS : Int) ∧
    (mainIteration hour date now load1 load2 rebootOk env elapsedWork
        st).1.failure_counts = st.failure_counts := by
  unfold mainIteration
  simp [h]
  decide

/-- Witness for C7: a malformed camera-list file at a non-reboot hour. -/
theorem empty_list_backoff_witness :
    (mainIteration 10 0 1000 .err .err (fun _ => true) cexEnv 0
        initState).2.dispatched = false ∧
    (mainIteration 10 0 1000 .err .err (fun _ => true) cexEnv 0
        initState).2.sleep = (EMPTY_LIST_BACKOFF_SECONDS : Int) ∧
    (EMPTY_LIST_BACKOFF_SECONDS : Int) ≠ (INTERVAL_SECONDS : Int) ∧
    (mainIteration 10 0 1000 .err .err (fun _ => true) cexEnv 0
        initState).1.failure_counts = initState.failure_counts :=
  empty_list_backoff 10 0 1000 .err .err (fun _ => true) cexEnv 0
    initState rfl

/-- C9: an iteration that dispatched per-camera work ends by sleeping
exactly `max 0 (INTERVAL_SECONDS - elapsedWork)` seconds, `elapsedWork`
being the measured duration of the camera work, so a slow iteration
shortens the residual sleep instead of drifting. -/
theorem residual_sleep_self_corrects (hour date now : Nat)
    (load1 load2 : LoadResult) (rebootOk : String → Bool)
    (env : String → Nat → AttemptOutcome) (elapsedWork : Int)
    (st : OrchState) (h : load_camera_list load2 ≠ []) :
    (mainIteration hour date now load1 load2 rebootOk env elapsedWork
        st).2.sleep = max 0 ((INTERVAL_SECONDS : Int) - elapsedWork) ∧
    (mainIteration hour date now load1 load2 rebootOk env elapsedWork
        st).2.dispatched = true := by
  unfold mainIteration
  cases hc : load_camera_list load2 with
  | nil => exact absurd hc h
  | cons a l => simp [hc]

/-- Witness for C9: one camera, the work took 3 seconds, the residual
sleep is 2 seconds. -/
theorem residual_sleep_self_corrects_witness :
    (mainIteration 10 0 1000 cexLoad cexLoad (fun _ => true) cexEnv 3
        initState).2.sleep = max 0 ((INTERVAL_SECONDS : Int) - 3) ∧
    (mainIteration 10 0 1000 cexLoad cexLoad (fun _ => true) cexEnv 3
        initState).2.dispatched = true :=
  residual_sleep_self_corrects 10 0 1000 cexLoad cexLoad (fun _ => true)
    cexEnv 3 initState (by decide)

/-- C10: at the daily-reboot hour with the daily reboot still pending,
an unreadable or malformed camera-list file makes `reboot_all_cameras`
iterate over the empty list: no reboot command is issued, yet the current
date is still recorded as rebooted, so any later iteration of the same
date — whatever its hour, loads or state of the fleet — issues no reboot
command either. -/
theorem daily_reboot_swallowed_by_load_failure (date now : Nat)
    (load1 load2 : LoadResult) (rebootOk : String → Bool)
    (env : String → Nat → AttemptOutcome) (elapsedWork : Int)
    (st : OrchState) (hday : st.last_reboot_day ≠ some date)
    (hload1 : load_camera_list load1 = []) :
    (mainIteration DAILY_REBOOT_HOUR date now load1 load2 rebootOk env
        elapsedWork st).2.rebootCmds = [] ∧
    (mainIteration DAILY_REBOOT_HOUR date now load1 load2 rebootOk env
        elapsedWork st).1.last_reboot_day = some date ∧
    (∀ hour2 now2 load1b load2b rebootOk2 env2 e2,
      (mainIteration hour2 date now2 load1b load2b rebootOk2 env2 e2
        (mainIteration DAILY_REBOOT_HOUR date now load1 load2 rebootOk
          env elapsedWork st).1).2.rebootCmds = []) := by
  have hcond : (DAILY_REBOOT_HOUR == DAILY_REBOOT_HOUR
      && st.last_reboot_day != some date) = true := by
    simp [hday]
  have hday2 : (mainIteration DAILY_REBOOT_HOUR date now load1 load2
      rebootOk env elapsedWork st).1.last_reboot_day = some date := by
    rw [mainIteration_lastDay, hcond]; rfl
  refine ⟨?_, hday2, ?_⟩
  · rw [mainIteration_rebootCmds, hcond, if_pos rfl, hload1]
    rfl
  · intro hour2 now2 load1b load2b rebootOk2 env2 e2
    rw [mainIteration_rebootCmds, hday2]
    simp

/-- Witness for C10: a fresh state at 3 o'clock with an unreadable list:
no reboot commands, the date recorded, and a later iteration of the same
date stays silent. -/
theorem daily_reboot_swallowed_by_load_failure_witness :
    (mainIteration DAILY_REBOOT_HOUR 0 1000 .err cexLoad (fun _ => true)
        cexEnv 0 initState).2.rebootCmds = [] ∧
    (mainIteration DAILY_REBOOT_HOUR 0 1000 .err cexLoad (fun _ => true)
        cexEnv 0 initState).1.last_reboot_day = some 0 ∧
    (∀ hour2 now2 load1b load2b rebootOk2 env2 e2,
      (mainIteration hour2 0 now2 load1b load2b rebootOk2 env2 e2
        (mainIteration DAILY_REBOOT_HOUR 0 1000 .err cexLoad
          (fun _ => true) cexEnv 0 initState).1).2.rebootCmds = []) :=
  daily_reboot_swallowed_by_load_failure 0 1000 .err cexLoad
    (fun _ => true) cexEnv 0 initState (by decide) rfl

end CaptureAnalyze
